import Mathlib

/-!
Shallow embedding of the headline-based investment agent
(src/investment_agent.py and src/tools/google_search_tools.py).

External collaborators (the NewsAPI HTTP request, the googlesearch
library call, the Yahoo company lookup, and Python's json.loads) are
modelled as functions carried by an `Env` record; the core logic that
consumes them is translated directly from the source.  Python floats
are modelled as exact rationals, Python exceptions as an `Except`
error channel.
-/

namespace InvestAgent

/-- A Python exception that may escape a collaborator call or the
enrichment step.  `attributeError` models the AttributeError raised
by `.get` on a non-dict value; `exc` stands for any other exception. -/
inductive PyErr where
  | exc
  | attributeError
deriving DecidableEq, Repr

/-- A parsed JSON document, the possible results of `json.loads`. -/
inductive Json where
  | null
  | bool (b : Bool)
  | num (q : Rat)
  | str (s : String)
  | arr (elts : List Json)
  | obj (fields : List (String × Json))
deriving Repr

/-- A Python value returned by the company-lookup collaborator
(`YahooFinanceTool.get_company_info`): either a string or some
non-string object (the `isinstance(company_info, str)` dispatch in
`generate_recommendations` only distinguishes these two cases). -/
inductive PyValue where
  | pyStr (s : String)
  | other
deriving Repr

/-- One article returned by the news adapter; `get_headline_sentiment`
reads `a.get('title', '')`, so only the optional title matters. -/
structure Article where
  title : Option String
deriving Repr

/-- Environment of `NewsAPITool`: the `enabled` flag (set from the
presence of the API key) and the outcome of the HTTP request made by
`get_trending_news` (query and days-back window), which either raises
or yields the articles list. -/
structure NewsEnv where
  enabled : Bool
  fetch : String → Nat → Except PyErr (List Article)

/-- One raw result yielded by the googlesearch library's `search`
generator in advanced mode. -/
structure RawResult where
  url : String
  title : Option String
  description : Option String
deriving Repr

/-- Mirrors `GoogleSearchResult` of src/tools/google_search_tools.py. -/
structure GoogleSearchResult where
  url : String
  title : Option String
  description : Option String
deriving Repr

/-- Mirrors `GoogleSearchResults` of src/tools/google_search_tools.py. -/
structure GoogleSearchResults where
  result_count : Nat
  results : List GoogleSearchResult
deriving Repr

/-- Environment of `GoogleSearchTool`: the underlying library call
`search(term, num_results, advanced, ...)`, which either raises
(network failure) or yields raw results.  There is no try/except
around it in the source. -/
structure SearchEnv where
  searchFn : String → Nat → Bool → Except PyErr (List RawResult)

/-- Full collaborator environment for one pipeline run:
news adapter, search adapter, company lookup
(`YahooFinanceTool.get_company_info`), and the behaviour of
`json.loads` (returns the parsed document or `none` when it raises). -/
structure Env where
  news : NewsEnv
  goog : SearchEnv
  lookup : String → Except PyErr PyValue
  parseJson : String → Option Json

/-- Mirrors `NewsAPITool.get_trending_news` (src/investment_agent.py
lines 66-92): returns `[]` when the tool is disabled, and the whole
request body is wrapped in try/except returning `[]` on any error. -/
def get_trending_news (env : NewsEnv) (query : String) (days_back : Nat) : List Article :=
  if env.enabled = false then []
  else
    match env.fetch query days_back with
    | Except.ok articles => articles
    | Except.error _ => []

/-- Mirrors `GoogleSearchTool.google_search`
(src/tools/google_search_tools.py lines 54-126): calls the library
`search` with no exception guard, then wraps each raw result as a
`GoogleSearchResult` (titled in advanced mode, url-only otherwise). -/
def google_search (env : SearchEnv) (query : String) (max_results : Nat) (advanced : Bool) :
    Except PyErr GoogleSearchResults :=
  match env.searchFn query max_results advanced with
  | Except.error e => Except.error e
  | Except.ok raws =>
    let search_results := raws.map (fun r =>
      if advanced then GoogleSearchResult.mk r.url r.title r.description
      else GoogleSearchResult.mk r.url none none)
    Except.ok (GoogleSearchResults.mk search_results.length search_results)

/-- Positive lexicon of `get_headline_sentiment` (line 228). -/
def positive_words : List String :=
  ["surge", "rise", "gain", "up", "positive", "growth", "profit", "success",
   "beat", "record", "strong"]

/-- Negative lexicon of `get_headline_sentiment` (line 229). -/
def negative_words : List String :=
  ["fall", "drop", "decline", "down", "negative", "loss", "crash", "risk",
   "miss", "weak", "lawsuit"]

/-- Whether the first character list is an initial segment of the second. -/
def charsAgree : List Char → List Char → Bool
  | [], _ => true
  | _ :: _, [] => false
  | a :: as, b :: bs => a == b && charsAgree as bs

/-- Whether the needle occurs contiguously somewhere in the haystack. -/
def subOccurs (needle : List Char) : List Char → Bool
  | [] => charsAgree needle []
  | c :: rest => charsAgree needle (c :: rest) || subOccurs needle rest

/-- Python's `word in text` substring test. -/
def strContainsSub (hay w : String) : Bool :=
  subOccurs w.toList hay.toList

/-- Python's `str.lower()`, character-wise lowercasing (the lexicons
and titles involved are ASCII, where the two agree). -/
def strToLower (s : String) : String :=
  String.mk (s.toList.map Char.toLower)

/-- Python's `any(word in t.lower() for word in words)`. -/
def titleMatches (words : List String) (t : String) : Bool :=
  words.any (fun w => strContainsSub (strToLower t) w)

/-- Sentiment report returned by `get_headline_sentiment` (the dict
built at lines 234-241), minus nothing: all six keys are kept. -/
structure SentimentReport where
  symbol : String
  positive_headlines : Nat
  negative_headlines : Nat
  total_headlines : Nat
  sentiment_score : Rat
  sample_headlines : List String
deriving Repr

/-- Scoring part of `get_headline_sentiment` (lines 227-241): counts
per-lexicon presence over the combined titles, takes the signed ratio
as score (0 when there are no titles), and keeps the first three
titles as sample. -/
def scoreTitles (symbol : String) (all_titles : List String) : SentimentReport :=
  let pos := all_titles.countP (fun t => titleMatches positive_words t)
  let neg := all_titles.countP (fun t => titleMatches negative_words t)
  let total := all_titles.length
  let sentiment_score : Rat :=
    if 0 < total then ((pos : Rat) - (neg : Rat)) / (total : Rat) else 0
  { symbol := symbol
    positive_headlines := pos
    negative_headlines := neg
    total_headlines := total
    sentiment_score := sentiment_score
    sample_headlines := all_titles.take 3 }

/-- Collection part of `get_headline_sentiment` (lines 219-226): news
titles (5 days back) first, then Google titles (query
"symbol stock news", 5 results, advanced), `None` titles read as "".
An exception from the search adapter propagates. -/
def collectTitles (env : Env) (symbol : String) : Except PyErr (List String) :=
  let news_titles := (get_trending_news env.news symbol 5).map (fun a => a.title.getD "")
  match google_search env.goog (symbol ++ " stock news") 5 true with
  | Except.error e => Except.error e
  | Except.ok google_results =>
    let google_titles := google_results.results.map (fun r => r.title.getD "")
    Except.ok (news_titles ++ google_titles)

/-- Mirrors `InvestmentAgent.get_headline_sentiment` (lines 217-241):
collect titles from both adapters, then score them. -/
def get_headline_sentiment (env : Env) (symbol : String) : Except PyErr SentimentReport :=
  match collectTitles env symbol with
  | Except.error e => Except.error e
  | Except.ok all_titles => Except.ok (scoreTitles symbol all_titles)

/-- Mirrors `InvestmentAgent._is_valid_json` (lines 137-143): true
exactly when `json.loads` succeeds. -/
def is_valid_json (pj : String → Option Json) (s : String) : Bool :=
  (pj s).isSome

/-- Python's `dict.get(key)` on a parsed JSON object. -/
def dictGet (fields : List (String × Json)) (key : String) : Option Json :=
  (fields.find? (fun kv => kv.fst == key)).map (fun kv => kv.snd)

/-- Enrichment step of `generate_recommendations` (lines 256-264).
A string response that `json.loads` accepts is re-parsed and read
with `.get('Name', symbol)` / `.get('Sector', 'Unknown')`; when the
parsed document is not a dict, `.get` raises AttributeError.  A
non-string or non-JSON response falls back to
(symbol, "Unknown"). -/
def enrichParse (pj : String → Option Json) (symbol : String) (company_info : PyValue) :
    Except PyErr (Json × Json) :=
  match company_info with
  | PyValue.pyStr s =>
    match pj s with
    | some (Json.obj fields) =>
      Except.ok ((dictGet fields "Name").getD (Json.str symbol),
                 (dictGet fields "Sector").getD (Json.str "Unknown"))
    | some _ => Except.error PyErr.attributeError
    | none => Except.ok (Json.str symbol, Json.str "Unknown")
  | PyValue.other => Except.ok (Json.str symbol, Json.str "Unknown")

/-- Models the reasoning f-string of line 270; Python renders the
score with two decimals and the sample list with repr, rendering here
is abstracted with toString. -/
def reasoningFor (score : Rat) (samples : List String) : String :=
  "Headline sentiment: " ++ toString score ++ ". Sample: " ++ toString samples

/-- Mirrors the `StockRecommendation` dataclass (lines 40-52).
`company_name` and `sector` hold whatever JSON value the enrichment
extracted (Python does not enforce the str annotation). -/
structure StockRecommendation where
  symbol : String
  company_name : Json
  current_price : Rat
  confidence_score : Rat
  reasoning : String
  sector : Json
  market_cap : Option String
  pe_ratio : Option Rat
  news_sentiment : Option Rat
  trend_alignment : Option String
deriving Repr

/-- Body of the per-candidate loop of `generate_recommendations`
(lines 251-276) before the try/except: sentiment, the
`total_headlines == 0` skip, company lookup, enrichment, and record
assembly.  `Except.error` is an exception reaching the per-candidate
boundary; `Except.ok none` is the empty-evidence skip. -/
def evalCandidateE (env : Env) (symbol : String) : Except PyErr (Option StockRecommendation) :=
  match get_headline_sentiment env symbol with
  | Except.error e => Except.error e
  | Except.ok sentiment =>
    if sentiment.total_headlines = 0 then Except.ok none
    else
      match env.lookup symbol with
      | Except.error e => Except.error e
      | Except.ok company_info =>
        match enrichParse env.parseJson symbol company_info with
        | Except.error e => Except.error e
        | Except.ok nameSector =>
          Except.ok (some
            { symbol := symbol
              company_name := nameSector.fst
              current_price := 0
              confidence_score := sentiment.sentiment_score
              reasoning := reasoningFor sentiment.sentiment_score sentiment.sample_headlines
              sector := nameSector.snd
              market_cap := none
              pe_ratio := none
              news_sentiment := none
              trend_alignment := none })

/-- The per-candidate boundary (lines 251-278): any exception from the
evaluation is caught and the candidate contributes no record. -/
def evalCandidate (env : Env) (symbol : String) : Option StockRecommendation :=
  match evalCandidateE env symbol with
  | Except.ok r => r
  | Except.error _ => none

/-- The records accumulated by the loop of `generate_recommendations`
over a candidate universe, in universe order. -/
def assembleRecords (env : Env) (univ : List String) : List StockRecommendation :=
  univ.filterMap (fun symbol => evalCandidate env symbol)

/-- Stable descending insertion by `confidence_score`: the new element
goes before the first existing element whose score is not above its
own, matching the order Python's stable `list.sort(key=...,
reverse=True)` produces. -/
def insertDesc (x : StockRecommendation) : List StockRecommendation → List StockRecommendation
  | [] => [x]
  | y :: ys =>
    if y.confidence_score ≤ x.confidence_score then x :: y :: ys
    else y :: insertDesc x ys

/-- Stable descending sort by `confidence_score`, modelling line 282's
`recommendations.sort(key=lambda x: x.confidence_score, reverse=True)`
(Python's sort is stable and `reverse=True` keeps ties in input
order). -/
def sortDesc : List StockRecommendation → List StockRecommendation
  | [] => []
  | x :: xs => insertDesc x (sortDesc xs)

/-- Mirrors `InvestmentAgent.generate_recommendations` (lines 243-283)
parameterised by the environment and the candidate universe: assemble
per-candidate records, keep strictly positive confidence, sort
descending (stably), truncate to `top_n`. -/
def generate_recommendations (env : Env) (univ : List String) (top_n : Nat) :
    List StockRecommendation :=
  let recommendations := assembleRecords env univ
  let filtered := recommendations.filter (fun r => decide (0 < r.confidence_score))
  (sortDesc filtered).take top_n

/-! Concrete environments used to instantiate the theorems below. -/

/-- Environment where the news request raises and the search adapter
answers with one result. -/
def envA : Env :=
  { news := { enabled := true, fetch := fun _ _ => Except.error PyErr.exc }
    goog := { searchFn := fun _ _ _ =>
        Except.ok [{ url := "https://example.com", title := some "AAPL stock gains", description := none }] }
    lookup := fun _ => Except.ok PyValue.other
    parseJson := fun _ => none }

/-- Environment where the news adapter answers with one article and
the search adapter raises. -/
def envB : Env :=
  { news := { enabled := true, fetch := fun _ _ => Except.ok [{ title := some "Shares gain today" }] }
    goog := { searchFn := fun _ _ _ => Except.error PyErr.exc }
    lookup := fun _ => Except.ok PyValue.other
    parseJson := fun _ => none }

/-- Environment where the search adapter raises only on the query for
candidate BBB and answers every other query with one result. -/
def envC3 : Env :=
  { news := { enabled := false, fetch := fun _ _ => Except.ok [] }
    goog := { searchFn := fun q _ _ =>
        if q = "BBB stock news" then Except.error PyErr.exc
        else Except.ok [{ url := "https://example.com", title := some "stock gains", description := none }] }
    lookup := fun _ => Except.ok PyValue.other
    parseJson := fun _ => none }

/-- Behaviour of `json.loads` on the input "[1, 2]": a valid JSON
array, not an object. -/
def pjArr : String → Option Json :=
  fun s => if s = "[1, 2]" then some (Json.arr [Json.num 1, Json.num 2]) else none

/-- Behaviour of `json.loads` on a serialized company document. -/
def pjObj : String → Option Json :=
  fun s =>
    if s = "obj" then
      some (Json.obj [("Name", Json.str "Apple Inc."), ("Sector", Json.str "Technology")])
    else none

/-- Environment whose company lookup returns the string "[1, 2]"
(valid JSON, not an object) while both signal adapters provide
evidence. -/
def envC2 : Env :=
  { news := { enabled := false, fetch := fun _ _ => Except.ok [] }
    goog := { searchFn := fun _ _ _ =>
        Except.ok [{ url := "https://example.com", title := some "AAPL stock gains", description := none }] }
    lookup := fun _ => Except.ok (PyValue.pyStr "[1, 2]")
    parseJson := pjArr }

/-- Environment where both adapters succeed but return no items at
all: every candidate collects empty evidence. -/
def envE : Env :=
  { news := { enabled := false, fetch := fun _ _ => Except.ok [] }
    goog := { searchFn := fun _ _ _ => Except.ok [] }
    lookup := fun _ => Except.ok PyValue.other
    parseJson := fun _ => none }

/-- Environment where both adapters succeed with one item each. -/
def envW : Env :=
  { news := { enabled := true, fetch := fun _ _ => Except.ok [{ title := some "n1" }] }
    goog := { searchFn := fun _ _ _ =>
        Except.ok [{ url := "https://example.com", title := some "g1", description := none }] }
    lookup := fun _ => Except.ok PyValue.other
    parseJson := fun _ => none }

/-- Environment with the news adapter disabled, one positive search
headline for every query, and a non-string company lookup. -/
def envDup : Env :=
  { news := { enabled := false, fetch := fun _ _ => Except.ok [] }
    goog := { searchFn := fun _ _ _ =>
        Except.ok [{ url := "https://example.com", title := some "NEE shares gain", description := none }] }
    lookup := fun _ => Except.ok PyValue.other
    parseJson := fun _ => none }

/-- Sentiment report `envDup` produces for the candidate NEE. -/
def sNEE : SentimentReport := scoreTitles "NEE" ["NEE shares gain"]

/-- Recommendation record `envDup` produces for the candidate NEE. -/
def rNEE : StockRecommendation :=
  { symbol := "NEE"
    company_name := Json.str "NEE"
    current_price := 0
    confidence_score := sNEE.sentiment_score
    reasoning := reasoningFor sNEE.sentiment_score sNEE.sample_headlines
    sector := Json.str "Unknown"
    market_cap := none
    pe_ratio := none
    news_sentiment := none
    trend_alignment := none }

/-! Helper lemmas shared by the claim theorems. -/

/-- Unfolding lemma for the score of `scoreTitles`. -/
theorem scoreTitles_score (sym : String) (titles : List String) :
    (scoreTitles sym titles).sentiment_score =
      if 0 < titles.length
      then ((titles.countP (fun t => titleMatches positive_words t) : Rat) -
            (titles.countP (fun t => titleMatches negative_words t) : Rat)) /
           (titles.length : Rat)
      else 0 := rfl

/-- Unfolding lemma for the counters and sample of `scoreTitles`. -/
theorem scoreTitles_fields (sym : String) (titles : List String) :
    (scoreTitles sym titles).positive_headlines =
        titles.countP (fun t => titleMatches positive_words t) ∧
    (scoreTitles sym titles).negative_headlines =
        titles.countP (fun t => titleMatches negative_words t) ∧
    (scoreTitles sym titles).total_headlines = titles.length ∧
    (scoreTitles sym titles).sample_headlines = titles.take 3 :=
  ⟨rfl, rfl, rfl, rfl⟩

/-- A signed count ratio with both counts below the total lies in
the interval from -1 to 1. -/
theorem ratio_bounds (p n t : Nat) (hp : p ≤ t) (hn : n ≤ t) (ht : 0 < t) :
    -1 ≤ ((p : Rat) - (n : Rat)) / (t : Rat) ∧ ((p : Rat) - (n : Rat)) / (t : Rat) ≤ 1 := by
  have ht' : (0 : Rat) < (t : Rat) := by exact_mod_cast ht
  constructor
  · rw [le_div_iff₀ ht']
    have hn' : (n : Rat) ≤ (t : Rat) := by exact_mod_cast hn
    have hp0 : (0 : Rat) ≤ (p : Rat) := by positivity
    linarith
  · rw [div_le_one ht']
    have hp' : (p : Rat) ≤ (t : Rat) := by exact_mod_cast hp
    have hn0 : (0 : Rat) ≤ (n : Rat) := by positivity
    linarith

theorem mem_insertDesc (x a : StockRecommendation) (l : List StockRecommendation) :
    a ∈ insertDesc x l ↔ a = x ∨ a ∈ l := by
  induction l with
  | nil => simp [insertDesc]
  | cons y ys ih =>
    simp only [insertDesc]
    by_cases h : y.confidence_score ≤ x.confidence_score
    · rw [if_pos h]
      simp only [List.mem_cons]
    · rw [if_neg h]
      simp only [List.mem_cons, ih]
      tauto

theorem insertDesc_perm (x : StockRecommendation) (l : List StockRecommendation) :
    List.Perm (insertDesc x l) (x :: l) := by
  induction l with
  | nil => simp [insertDesc]
  | cons y ys ih =>
    simp only [insertDesc]
    by_cases h : y.confidence_score ≤ x.confidence_score
    · rw [if_pos h]
    · rw [if_neg h]
      exact (ih.cons y).trans (List.Perm.swap x y ys)

theorem sortDesc_perm (l : List StockRecommendation) : List.Perm (sortDesc l) l := by
  induction l with
  | nil => simp [sortDesc]
  | cons x xs ih =>
    exact (insertDesc_perm x (sortDesc xs)).trans (ih.cons x)

theorem pairwise_insertDesc (x : StockRecommendation) (l : List StockRecommendation)
    (h : l.Pairwise (fun a b => b.confidence_score ≤ a.confidence_score)) :
    (insertDesc x l).Pairwise (fun a b => b.confidence_score ≤ a.confidence_score) := by
  induction l with
  | nil => simp [insertDesc]
  | cons y ys ih =>
    rw [List.pairwise_cons] at h
    obtain ⟨hy, hys⟩ := h
    simp only [insertDesc]
    by_cases hle : y.confidence_score ≤ x.confidence_score
    · rw [if_pos hle, List.pairwise_cons]
      refine ⟨?_, ?_⟩
      · intro z hz
        rcases List.mem_cons.mp hz with hzy | hzys
        · rw [hzy]; exact hle
        · exact le_trans (hy z hzys) hle
      · rw [List.pairwise_cons]
        exact ⟨hy, hys⟩
    · rw [if_neg hle, List.pairwise_cons]
      refine ⟨?_, ih hys⟩
      intro z hz
      rcases (mem_insertDesc x z ys).mp hz with hzx | hzys
      · rw [hzx]
        exact (lt_of_not_le hle).le
      · exact hy z hzys

theorem pairwise_sortDesc (l : List StockRecommendation) :
    (sortDesc l).Pairwise (fun a b => b.confidence_score ≤ a.confidence_score) := by
  induction l with
  | nil => simp [sortDesc]
  | cons x xs ih => exact pairwise_insertDesc x (sortDesc xs) ih

/-- Inserting an element of score `s` puts it after every existing
element of score `s` (only strictly larger scores are passed over), so
the `s`-score fibre of the list gains the new element at its end, in
agreement with a stable descending sort. -/
theorem filter_insertDesc (s : Rat) (x : StockRecommendation) (l : List StockRecommendation) :
    (insertDesc x l).filter (fun r => decide (r.confidence_score = s)) =
      if x.confidence_score = s
      then x :: l.filter (fun r => decide (r.confidence_score = s))
      else l.filter (fun r => decide (r.confidence_score = s)) := by
  induction l with
  | nil =>
    by_cases hx : x.confidence_score = s
    · rw [if_pos hx]
      simp [insertDesc, List.filter, hx]
    · rw [if_neg hx]
      simp [insertDesc, List.filter, hx]
  | cons y ys ih =>
    simp only [insertDesc]
    by_cases hle : y.confidence_score ≤ x.confidence_score
    · rw [if_pos hle]
      by_cases hx : x.confidence_score = s
      · rw [if_pos hx]
        simp [List.filter_cons, hx]
      · rw [if_neg hx]
        simp [List.filter_cons, hx]
    · rw [if_neg hle]
      by_cases hx : x.confidence_score = s
      · rw [if_pos hx]
        have hy : ¬ y.confidence_score = s := by
          intro hys
          exact absurd (hys.trans hx.symm).le hle
        simp only [List.filter_cons, decide_eq_true_eq, if_neg hy]
        rw [ih, if_pos hx]
      · rw [if_neg hx]
        by_cases hy : y.confidence_score = s
        · simp only [List.filter_cons, decide_eq_true_eq, if_pos hy]
          rw [ih, if_neg hx]
        · simp only [List.filter_cons, decide_eq_true_eq, if_neg hy]
          rw [ih, if_neg hx]

/-- The stable descending sort does not reorder elements of equal
score: every score fibre of the output equals the same fibre of the
input. -/
theorem filter_sortDesc (s : Rat) (l : List StockRecommendation) :
    (sortDesc l).filter (fun r => decide (r.confidence_score = s)) =
      l.filter (fun r => decide (r.confidence_score = s)) := by
  induction l with
  | nil => rfl
  | cons x xs ih =>
    show (insertDesc x (sortDesc xs)).filter _ = _
    rw [filter_insertDesc, List.filter_cons]
    by_cases hx : x.confidence_score = s
    · rw [if_pos hx, ih]
      simp [hx]
    · rw [if_neg hx, ih]
      simp [hx]

/-- A record emitted for a candidate carries that candidate as its
symbol. -/
theorem evalCandidateE_symbol (env : Env) (s : String) (r : StockRecommendation)
    (h : evalCandidateE env s = Except.ok (some r)) : r.symbol = s := by
  unfold evalCandidateE at h
  cases hg : get_headline_sentiment env s <;> rw [hg] at h <;> dsimp only at h
  · exact absurd h (by simp)
  case ok sentiment =>
    by_cases ht : sentiment.total_headlines = 0
    · rw [if_pos ht] at h
      exact absurd h (by simp)
    · rw [if_neg ht] at h
      cases hl : env.lookup s <;> rw [hl] at h <;> dsimp only at h
      · exact absurd h (by simp)
      · rename_i ci
        cases he : enrichParse env.parseJson s ci <;> rw [he] at h <;> dsimp only at h
        · exact absurd h (by simp)
        · rename_i ns
          simp only [Except.ok.injEq, Option.some.injEq] at h
          rw [← h]

theorem evalCandidate_symbol (env : Env) (s : String) (r : StockRecommendation)
    (h : evalCandidate env s = some r) : r.symbol = s := by
  unfold evalCandidate at h
  cases he : evalCandidateE env s <;> rw [he] at h <;> dsimp only at h
  · exact absurd h (by simp)
  · rename_i o
    rw [h] at he
    exact evalCandidateE_symbol env s r he

/-- The symbols of the assembled records form a subsequence of the
candidate universe. -/
theorem symbols_sublist (env : Env) (u : List String) :
    ((assembleRecords env u).map (fun r => r.symbol)).Sublist u := by
  induction u with
  | nil => simp [assembleRecords]
  | cons s ss ih =>
    simp only [assembleRecords, List.filterMap_cons]
    cases hc : evalCandidate env s
    · exact ih.cons s
    case some r =>
      simp only [List.map_cons]
      rw [evalCandidate_symbol env s r hc]
      exact ih.cons₂ s

/-- Every record the ranker emits was assembled from the universe and
has strictly positive confidence. -/
theorem mem_generate (env : Env) (u : List String) (n : Nat) (r : StockRecommendation)
    (h : r ∈ generate_recommendations env u n) :
    r ∈ assembleRecords env u ∧ 0 < r.confidence_score := by
  unfold generate_recommendations at h
  have h1 := List.mem_of_mem_take h
  have h2 := (sortDesc_perm _).mem_iff.mp h1
  have h3 := List.of_mem_filter h2
  simp only [decide_eq_true_eq] at h3
  exact ⟨List.mem_of_mem_filter h2, h3⟩

/-! Claim theorems. -/

/-- C3: an exception while evaluating a single candidate is caught at
the per-candidate boundary: the failing candidate produces no record,
and both the assembled records and the final recommendation list are
exactly what they would be had that candidate not been in the
universe. -/
theorem c3_per_candidate_isolation (env : Env) (u1 u2 : List String) (c : String)
    (e : PyErr) (n : Nat) (h : evalCandidateE env c = Except.error e) :
    evalCandidate env c = none ∧
    assembleRecords env (u1 ++ c :: u2) = assembleRecords env (u1 ++ u2) ∧
    generate_recommendations env (u1 ++ c :: u2) n
      = generate_recommendations env (u1 ++ u2) n := by
  have hc : evalCandidate env c = none := by
    unfold evalCandidate
    rw [h]
  have ha : assembleRecords env (u1 ++ c :: u2) = assembleRecords env (u1 ++ u2) := by
    simp [assembleRecords, List.filterMap_append, List.filterMap_cons, hc]
  refine ⟨hc, ha, ?_⟩
  simp only [generate_recommendations, ha]

/-- C3 witness: in `envC3` the search adapter raises for candidate BBB
only; BBB is dropped and the records of AAA and CCC are unchanged. -/
theorem c3_per_candidate_isolation_witness :
    evalCandidateE envC3 "BBB" = Except.error PyErr.exc ∧
    assembleRecords envC3 ["AAA", "BBB", "CCC"] = assembleRecords envC3 ["AAA", "CCC"] :=
  ⟨rfl, (c3_per_candidate_isolation envC3 ["AAA"] ["CCC"] "BBB" PyErr.exc 10 rfl).2.1⟩

/-- C4: the ranker emits no record with confidence at or below zero,
and its output length is the minimum of topN and the number of
assembled records with strictly positive score. -/
theorem c4_positive_and_length (env : Env) (u : List String) (n : Nat) :
    (∀ r ∈ generate_recommendations env u n, 0 < r.confidence_score) ∧
    (generate_recommendations env u n).length =
      min n ((assembleRecords env u).filter
        (fun r => decide (0 < r.confidence_score))).length := by
  constructor
  · intro r hr
    exact (mem_generate env u n r hr).2
  · show ((sortDesc ((assembleRecords env u).filter
        (fun r => decide (0 < r.confidence_score)))).take n).length = _
    rw [List.length_take, (sortDesc_perm _).length_eq]

/-- The score `envDup` assigns to NEE is 1. -/
theorem sNEE_score : sNEE.sentiment_score = 1 := by
  have hp : List.countP (fun t => titleMatches positive_words t) ["NEE shares gain"] = 1 := by
    decide
  have hn : List.countP (fun t => titleMatches negative_words t) ["NEE shares gain"] = 0 := by
    decide
  have h : sNEE.sentiment_score =
      ((List.countP (fun t => titleMatches positive_words t) ["NEE shares gain"] : Rat) -
       (List.countP (fun t => titleMatches negative_words t) ["NEE shares gain"] : Rat)) /
      ((["NEE shares gain"] : List String).length : Rat) := by
    show (scoreTitles "NEE" ["NEE shares gain"]).sentiment_score = _
    rw [scoreTitles_score, if_pos (by simp)]
  rw [h, hp, hn]
  norm_num

/-- In `envDup` the pipeline over the singleton universe [NEE] with
topN 1 emits the record for NEE once. -/
theorem generate_envDup_single :
    generate_recommendations envDup ["NEE"] 1 = [rNEE] := by
  have hassemble : assembleRecords envDup ["NEE"] = [rNEE] := rfl
  have hscore : (0 : Rat) < rNEE.confidence_score := by
    show (0 : Rat) < sNEE.sentiment_score
    rw [sNEE_score]
    norm_num
  have hfilter : ([rNEE] : List StockRecommendation).filter
      (fun r => decide (0 < r.confidence_score)) = [rNEE] := by
    simp [List.filter_cons, hscore]
  show (sortDesc ((assembleRecords envDup ["NEE"]).filter
      (fun r => decide (0 < r.confidence_score)))).take 1 = [rNEE]
  rw [hassemble, hfilter]
  rfl

/-- C4 witness: the theorem instantiated in `envDup` at the emitted
record for NEE. -/
theorem c4_positive_and_length_witness :
    0 < rNEE.confidence_score ∧
    (generate_recommendations envDup ["NEE"] 1).length =
      min 1 ((assembleRecords envDup ["NEE"]).filter
        (fun r => decide (0 < r.confidence_score))).length :=
  ⟨(c4_positive_and_length envDup ["NEE"] 1).1 rNEE
     (by rw [generate_envDup_single]; exact List.mem_singleton_self rNEE),
   (c4_positive_and_length envDup ["NEE"] 1).2⟩

/-- C5: the ranker output is sorted non-increasingly by confidence,
and each score fibre of the output is a subsequence of the same fibre
of the assembled records (which are in universe order), so equal
scores keep their first-encountered order. -/
theorem c5_sorted_and_stable (env : Env) (u : List String) (n : Nat) :
    (generate_recommendations env u n).Pairwise
      (fun a b => b.confidence_score ≤ a.confidence_score) ∧
    ∀ s : Rat,
      ((generate_recommendations env u n).filter
          (fun r => decide (r.confidence_score = s))).Sublist
        ((assembleRecords env u).filter (fun r => decide (r.confidence_score = s))) := by
  constructor
  · show (((sortDesc ((assembleRecords env u).filter
        (fun r => decide (0 < r.confidence_score)))).take n)).Pairwise _
    exact List.Pairwise.sublist (List.take_sublist n _) (pairwise_sortDesc _)
  · intro s
    show (((sortDesc ((assembleRecords env u).filter
        (fun r => decide (0 < r.confidence_score)))).take n).filter _).Sublist _
    have t1 := List.Sublist.filter (fun r => decide (r.confidence_score = s))
      (List.take_sublist n (sortDesc ((assembleRecords env u).filter
        (fun r => decide (0 < r.confidence_score)))))
    rw [filter_sortDesc] at t1
    exact t1.trans (List.Sublist.filter _ (List.filter_sublist _))

/-- C6: for every list of text items the sentiment score lies in
[-1, 1]; it equals (positiveCount - negativeCount) / totalCount when
totalCount is positive, and is 0 for the empty list. -/
theorem c6_score_bounds (sym : String) (titles : List String) :
    -1 ≤ (scoreTitles sym titles).sentiment_score ∧
    (scoreTitles sym titles).sentiment_score ≤ 1 ∧
    (0 < (scoreTitles sym titles).total_headlines →
      (scoreTitles sym titles).sentiment_score =
        (((scoreTitles sym titles).positive_headlines : Rat) -
         ((scoreTitles sym titles).negative_headlines : Rat)) /
        ((scoreTitles sym titles).total_headlines : Rat)) ∧
    (titles = [] → (scoreTitles sym titles).sentiment_score = 0) := by
  rcases Nat.eq_zero_or_pos titles.length with h0 | hpos
  · have hs : (scoreTitles sym titles).sentiment_score = 0 := by
      rw [scoreTitles_score, if_neg (by omega)]
    refine ⟨by rw [hs]; norm_num, by rw [hs]; norm_num, ?_, fun _ => hs⟩
    intro ht
    have : (scoreTitles sym titles).total_headlines = titles.length := rfl
    omega
  · have hb := ratio_bounds
      (titles.countP (fun t => titleMatches positive_words t))
      (titles.countP (fun t => titleMatches negative_words t))
      titles.length (List.countP_le_length _) (List.countP_le_length _) hpos
    have hs : (scoreTitles sym titles).sentiment_score =
        ((titles.countP (fun t => titleMatches positive_words t) : Rat) -
         (titles.countP (fun t => titleMatches negative_words t) : Rat)) /
        (titles.length : Rat) := by
      rw [scoreTitles_score, if_pos hpos]
    refine ⟨by rw [hs]; exact hb.1, by rw [hs]; exact hb.2, fun _ => hs, ?_⟩
    intro hnil
    rw [hnil] at hpos
    exact absurd hpos (by simp)

/-- C6 witness: the bounds at a one-item list and the zero score at
the empty list, obtained from the theorem itself. -/
theorem c6_score_bounds_witness :
    (0 < (scoreTitles "S" ["stocks up"]).total_headlines) ∧
    ((scoreTitles "S" ["stocks up"]).sentiment_score =
      (((scoreTitles "S" ["stocks up"]).positive_headlines : Rat) -
       ((scoreTitles "S" ["stocks up"]).negative_headlines : Rat)) /
      ((scoreTitles "S" ["stocks up"]).total_headlines : Rat)) ∧
    (scoreTitles "S" ([] : List String)).sentiment_score = 0 :=
  ⟨by decide,
   (c6_score_bounds "S" ["stocks up"]).2.2.1 (by decide),
   (c6_score_bounds "S" []).2.2.2 rfl⟩

/-- C7: an item containing both a positive and a negative lexicon word
increments both counters exactly once, and a single such item scores
0. -/
theorem c7_both_counters (sym t : String)
    (hp : titleMatches positive_words t = true)
    (hn : titleMatches negative_words t = true) :
    (scoreTitles sym [t]).positive_headlines = 1 ∧
    (scoreTitles sym [t]).negative_headlines = 1 ∧
    (scoreTitles sym [t]).sentiment_score = 0 := by
  have hps : [t].countP (fun s => titleMatches positive_words s) = 1 := by
    simp [List.countP_cons, hp]
  have hns : [t].countP (fun s => titleMatches negative_words s) = 1 := by
    simp [List.countP_cons, hn]
  refine ⟨hps, hns, ?_⟩
  rw [scoreTitles_score, if_pos (by simp), hps, hns]
  norm_num

/-- C7 witness: the item "Profit falls sharply" hits both lexicons,
so both counters are 1 and the score is 0. -/
theorem c7_both_counters_witness :
    titleMatches positive_words "Profit falls sharply" = true ∧
    titleMatches negative_words "Profit falls sharply" = true ∧
    (scoreTitles "X" ["Profit falls sharply"]).positive_headlines = 1 ∧
    (scoreTitles "X" ["Profit falls sharply"]).negative_headlines = 1 ∧
    (scoreTitles "X" ["Profit falls sharply"]).sentiment_score = 0 := by
  have h := c7_both_counters "X" "Profit falls sharply" (by decide) (by decide)
  exact ⟨by decide, by decide, h.1, h.2.1, h.2.2⟩

/-- C8: a candidate whose collection succeeds with no evidence is
excluded entirely: its evaluation ends in the empty-evidence skip
(no error), and no emitted record carries its identifier. -/
theorem c8_empty_evidence_excluded (env : Env) (u : List String) (n : Nat) (c : String)
    (h : collectTitles env c = Except.ok []) :
    evalCandidateE env c = Except.ok none ∧
    ∀ r ∈ generate_recommendations env u n, r.symbol ≠ c := by
  have hs : get_headline_sentiment env c = Except.ok (scoreTitles c []) := by
    unfold get_headline_sentiment
    rw [h]
  have hE : evalCandidateE env c = Except.ok none := by
    unfold evalCandidateE
    rw [hs]
    rfl
  have hnone : evalCandidate env c = none := by
    unfold evalCandidate
    rw [hE]
  refine ⟨hE, ?_⟩
  intro r hr hsym
  have hm := (mem_generate env u n r hr).1
  obtain ⟨s, _, hs_eval⟩ := List.mem_filterMap.mp hm
  have hrs := evalCandidate_symbol env s r hs_eval
  have hsc : s = c := by rw [← hrs, hsym]
  rw [hsc, hnone] at hs_eval
  exact Option.noConfusion hs_eval

/-- C8 witness: in `envE` every adapter answers with no items;
candidate ZZZ is skipped without an error. -/
theorem c8_empty_evidence_excluded_witness :
    collectTitles envE "ZZZ" = Except.ok [] ∧
    evalCandidateE envE "ZZZ" = Except.ok none :=
  ⟨rfl, (c8_empty_evidence_excluded envE ["ZZZ"] 10 "ZZZ" rfl).1⟩

/-- C9: when both adapters answer, the collected titles are all news
titles (in adapter order) followed by all search titles (in adapter
order), with no deduplication, and the sample headlines are exactly
the first three of that concatenation. -/
theorem c9_concatenation_order (env : Env) (sym : String)
    (arts : List Article) (raws : List RawResult)
    (hen : env.news.enabled = true)
    (hfetch : env.news.fetch sym 5 = Except.ok arts)
    (hsearch : env.goog.searchFn (sym ++ " stock news") 5 true = Except.ok raws) :
    collectTitles env sym =
      Except.ok (arts.map (fun a => a.title.getD "") ++ raws.map (fun r => r.title.getD "")) ∧
    get_headline_sentiment env sym =
      Except.ok (scoreTitles sym
        (arts.map (fun a => a.title.getD "") ++ raws.map (fun r => r.title.getD ""))) ∧
    (scoreTitles sym
        (arts.map (fun a => a.title.getD "") ++ raws.map (fun r => r.title.getD ""))).sample_headlines =
      (arts.map (fun a => a.title.getD "") ++ raws.map (fun r => r.title.getD "")).take 3 := by
  have hnews : get_trending_news env.news sym 5 = arts := by
    simp [get_trending_news, hen, hfetch]
  have hcol : collectTitles env sym =
      Except.ok (arts.map (fun a => a.title.getD "") ++ raws.map (fun r => r.title.getD "")) := by
    unfold collectTitles google_search
    rw [hsearch, hnews]
    simp [List.map_map]
  refine ⟨hcol, ?_, rfl⟩
  unfold get_headline_sentiment
  rw [hcol]

/-- C9 witness: in `envW` the news adapter answers with title n1 and
the search adapter with title g1; the collected list is [n1, g1]. -/
theorem c9_concatenation_order_witness :
    collectTitles envW "AAPL" = Except.ok ["n1", "g1"] ∧
    get_headline_sentiment envW "AAPL" = Except.ok (scoreTitles "AAPL" ["n1", "g1"]) :=
  ⟨(c9_concatenation_order envW "AAPL" [{ title := some "n1" }]
      [{ url := "https://example.com", title := some "g1", description := none }]
      rfl rfl rfl).1,
   (c9_concatenation_order envW "AAPL" [{ title := some "n1" }]
      [{ url := "https://example.com", title := some "g1", description := none }]
      rfl rfl rfl).2.1⟩

/-- C1 counterexample: in `envB` the news adapter returns one article
but the search adapter raises; the candidate's evaluation does not
proceed with the news items — the sentiment call itself raises, so the
candidate is aborted (skipped by the per-candidate boundary), contrary
to the claim that each adapter call is independently guarded. -/
theorem c1_counterexample :
    (get_trending_news envB.news "AAPL" 5).length = 1 ∧
    get_headline_sentiment envB "AAPL" = Except.error PyErr.exc ∧
    evalCandidate envB "AAPL" = none :=
  ⟨rfl, rfl, rfl⟩

/-- C1 amended: only the news adapter call is independently guarded —
a failing news fetch contributes an empty sequence and collection
proceeds with the search items alone; a raising search adapter is not
guarded at its call site and aborts the candidate (the exception is
caught only at the per-candidate boundary, which skips the
candidate). -/
theorem c1_news_guarded_search_not (env : Env) (sym : String) :
    (∀ e raws, env.news.fetch sym 5 = Except.error e →
      env.goog.searchFn (sym ++ " stock news") 5 true = Except.ok raws →
      collectTitles env sym = Except.ok (raws.map (fun r => r.title.getD ""))) ∧
    (∀ e, env.goog.searchFn (sym ++ " stock news") 5 true = Except.error e →
      get_headline_sentiment env sym = Except.error e ∧ evalCandidate env sym = none) := by
  constructor
  · intro e raws hf hsr
    have hnews : get_trending_news env.news sym 5 = [] := by
      unfold get_trending_news
      cases he : env.news.enabled
      · rw [if_pos rfl]
      · rw [if_neg (by simp), hf]
    unfold collectTitles google_search
    rw [hsr, hnews]
    simp [List.map_map]
  · intro e hsr
    have hcol : collectTitles env sym = Except.error e := by
      unfold collectTitles google_search
      rw [hsr]
    have hsent : get_headline_sentiment env sym = Except.error e := by
      unfold get_headline_sentiment
      rw [hcol]
    refine ⟨hsent, ?_⟩
    unfold evalCandidate evalCandidateE
    rw [hsent]

/-- C1 amended witness: in `envA` the news fetch raises and collection
still yields the search title; in `envB` the search call raises and
the candidate is aborted. -/
theorem c1_news_guarded_search_not_witness :
    collectTitles envA "AAPL" = Except.ok ["AAPL stock gains"] ∧
    get_headline_sentiment envB "AAPL" = Except.error PyErr.exc ∧
    evalCandidate envB "AAPL" = none := by
  have ha := (c1_news_guarded_search_not envA "AAPL").1 PyErr.exc
    [{ url := "https://example.com", title := some "AAPL stock gains", description := none }]
    rfl rfl
  have hb := (c1_news_guarded_search_not envB "AAPL").2 PyErr.exc rfl
  exact ⟨ha, hb.1, hb.2⟩

/-- C2 counterexample: a company-lookup response that is the string
"[1, 2]" — valid JSON but not an object — makes the enrichment step
raise AttributeError instead of yielding the fallback pair. -/
theorem c2_counterexample :
    enrichParse pjArr "AAPL" (PyValue.pyStr "[1, 2]") = Except.error PyErr.attributeError :=
  rfl

/-- C2 amended: enrichment never raises and yields the fallback pair
for a non-string response or a string that is not valid JSON; a string
parsing to a JSON object yields its Name/Sector fields with per-field
fallbacks; but a string parsing to valid non-object JSON raises
AttributeError, in which case the candidate is skipped at the
per-candidate boundary rather than enriched with the fallback pair. -/
theorem c2_enrichment_fallback (pj : String → Option Json) (sym : String) :
    (enrichParse pj sym PyValue.other = Except.ok (Json.str sym, Json.str "Unknown")) ∧
    (∀ s, pj s = none →
      enrichParse pj sym (PyValue.pyStr s) = Except.ok (Json.str sym, Json.str "Unknown")) ∧
    (∀ s fields, pj s = some (Json.obj fields) →
      enrichParse pj sym (PyValue.pyStr s) =
        Except.ok ((dictGet fields "Name").getD (Json.str sym),
                   (dictGet fields "Sector").getD (Json.str "Unknown"))) ∧
    (∀ s j, pj s = some j → (∀ fs, j ≠ Json.obj fs) →
      enrichParse pj sym (PyValue.pyStr s) = Except.error PyErr.attributeError) ∧
    (∀ (env : Env) (ci : PyValue) (e : PyErr), env.parseJson = pj →
      env.lookup sym = Except.ok ci →
      enrichParse pj sym ci = Except.error e →
      evalCandidate env sym = none) := by
  refine ⟨rfl, ?_, ?_, ?_, ?_⟩
  · intro s hnone
    unfold enrichParse
    dsimp only
    rw [hnone]
  · intro s fields hobj
    unfold enrichParse
    dsimp only
    rw [hobj]
  · intro s j hsome hnotobj
    unfold enrichParse
    dsimp only
    rw [hsome]
    cases j with
    | obj fields => exact absurd rfl (hnotobj fields)
    | null => rfl
    | bool b => rfl
    | num q => rfl
    | str t => rfl
    | arr elts => rfl
  · intro env ci e hpj hlook herr
    unfold evalCandidate evalCandidateE
    cases hg : get_headline_sentiment env sym
    · rfl
    · rename_i sentiment
      dsimp only
      by_cases ht : sentiment.total_headlines = 0
      · rw [if_pos ht]
      · rw [if_neg ht, hlook]
        dsimp only
        rw [← hpj] at herr
        rw [herr]

/-- C2 amended witness: all five behaviours at concrete inputs; the
environment `envC2` looks up the non-object JSON string "[1, 2]" and
the candidate is skipped rather than crashed. -/
theorem c2_enrichment_fallback_witness :
    enrichParse pjArr "AAPL" PyValue.other = Except.ok (Json.str "AAPL", Json.str "Unknown") ∧
    enrichParse pjArr "AAPL" (PyValue.pyStr "nonsense")
      = Except.ok (Json.str "AAPL", Json.str "Unknown") ∧
    enrichParse pjObj "AAPL" (PyValue.pyStr "obj")
      = Except.ok (Json.str "Apple Inc.", Json.str "Technology") ∧
    enrichParse pjArr "AAPL" (PyValue.pyStr "[1, 2]") = Except.error PyErr.attributeError ∧
    evalCandidate envC2 "AAPL" = none := by
  refine ⟨(c2_enrichment_fallback pjArr "AAPL").1,
          (c2_enrichment_fallback pjArr "AAPL").2.1 "nonsense" rfl,
          ?_,
          (c2_enrichment_fallback pjArr "AAPL").2.2.2.1 "[1, 2]"
            (Json.arr [Json.num 1, Json.num 2]) rfl (fun fs h => Json.noConfusion h),
          (c2_enrichment_fallback pjArr "AAPL").2.2.2.2 envC2
            (PyValue.pyStr "[1, 2]") PyErr.attributeError rfl rfl rfl⟩
  exact (c2_enrichment_fallback pjObj "AAPL").2.2.1 "obj"
    [("Name", Json.str "Apple Inc."), ("Sector", Json.str "Technology")] rfl

/-- In `envDup` every occurrence of NEE evaluates to the record
`rNEE`. -/
theorem evalCandidate_envDup : evalCandidate envDup "NEE" = some rNEE := rfl

/-- In `envDup` the pipeline over the universe [NEE, NEE] emits the
record for NEE twice. -/
theorem generate_envDup : generate_recommendations envDup ["NEE", "NEE"] 10 = [rNEE, rNEE] := by
  have hassemble : assembleRecords envDup ["NEE", "NEE"] = [rNEE, rNEE] := rfl
  have hscore : (0 : Rat) < rNEE.confidence_score := by
    show (0 : Rat) < sNEE.sentiment_score
    rw [sNEE_score]
    norm_num
  have hfilter : ([rNEE, rNEE] : List StockRecommendation).filter
      (fun r => decide (0 < r.confidence_score)) = [rNEE, rNEE] := by
    simp [List.filter_cons, hscore]
  have hsort : sortDesc [rNEE, rNEE] = [rNEE, rNEE] := by
    show insertDesc rNEE (insertDesc rNEE []) = [rNEE, rNEE]
    simp only [insertDesc, if_pos le_rfl]
  show (sortDesc ((assembleRecords envDup ["NEE", "NEE"]).filter
      (fun r => decide (0 < r.confidence_score)))).take 10 = [rNEE, rNEE]
  rw [hassemble, hfilter, hsort]
  rfl

/-- C10 counterexample: with the duplicate universe [NEE, NEE] (the
real stock universe likewise contains duplicate tickers) the emitted
list carries the identifier NEE twice — symbols are not unique. -/
theorem c10_counterexample :
    (generate_recommendations envDup ["NEE", "NEE"] 10).map (fun r => r.symbol)
      = ["NEE", "NEE"] ∧
    ¬ ((generate_recommendations envDup ["NEE", "NEE"] 10).map (fun r => r.symbol)).Nodup := by
  have h : (generate_recommendations envDup ["NEE", "NEE"] 10).map (fun r => r.symbol)
      = ["NEE", "NEE"] := by
    rw [generate_envDup]
    rfl
  refine ⟨h, ?_⟩
  rw [h]
  decide

/-- C10 amended: emitted symbols are unique whenever the candidate
universe itself has no duplicates; duplicate universe entries may
produce duplicate records, collapsing only by truncation. -/
theorem c10_nodup_of_nodup_universe (env : Env) (u : List String) (n : Nat)
    (h : u.Nodup) :
    ((generate_recommendations env u n).map (fun r => r.symbol)).Nodup := by
  have h1 : ((assembleRecords env u).map (fun r => r.symbol)).Nodup :=
    List.Nodup.sublist (symbols_sublist env u) h
  have h2 : (((assembleRecords env u).filter
      (fun r => decide (0 < r.confidence_score))).map (fun r => r.symbol)).Nodup :=
    List.Nodup.sublist (List.Sublist.map _ (List.filter_sublist _)) h1
  have h3 : ((sortDesc ((assembleRecords env u).filter
      (fun r => decide (0 < r.confidence_score)))).map (fun r => r.symbol)).Nodup :=
    (List.Perm.map _ (sortDesc_perm _)).symm.nodup h2
  show (((sortDesc ((assembleRecords env u).filter
      (fun r => decide (0 < r.confidence_score)))).take n).map (fun r => r.symbol)).Nodup
  rw [List.map_take]
  exact List.Nodup.sublist (List.take_sublist n _) h3

/-- C10 amended witness: a duplicate-free universe yields
duplicate-free symbols. -/
theorem c10_nodup_of_nodup_universe_witness :
    (["NEE"] : List String).Nodup ∧
    ((generate_recommendations envDup ["NEE"] 10).map (fun r => r.symbol)).Nodup :=
  ⟨by decide, c10_nodup_of_nodup_universe envDup ["NEE"] 10 (by decide)⟩

end InvestAgent
